import Mathlib

/-!
Shallow embedding of the transactional core of the reupspots marketplace
application (credit ledger, booking state machine, escrow controller,
pricing, post creation), translated from the TypeScript source
(`DatabaseStorage` methods and the Express route handlers), together with
proofs about the claims of the specification.

Conventions:
* database rows are association lists or records;
* JavaScript `undefined` / SQL `NULL` is `Option.none`;
* statuses, actions and categories are `String`s exactly as in the source;
* money amounts and credits are `Int` (JS numbers used integrally), and
  the dollar-valued pricing tables are `Rat` (exact values of the
  floating-point literals 0.25, 0.5, 1, 2, 2.5, which are all dyadic).
-/

namespace ReupSpots

/-! ## Credit ledger (`DatabaseStorage.initCredits` / `deductCredits` / `addCredits`) -/

/-- One row of the `credit_logs` table (the fields written by the source). -/
structure CreditLogEntry where
  userId : String
  action : String
  amount : Int
  description : String
  deriving Repr, DecidableEq

/-- The ledger portion of the database: the `credits` table as an
association list from userId to balance, and the append-only
`credit_logs` table. -/
structure LedgerState where
  credits : List (String × Int)
  logs : List CreditLogEntry
  deriving Repr, DecidableEq

/-- `SELECT balance FROM credits WHERE user_id = u` (first matching row). -/
def lookupBalance : List (String × Int) → String → Option Int
  | [], _ => none
  | e :: t, u => if e.1 == u then some e.2 else lookupBalance t u

/-- `UPDATE credits SET balance = b WHERE user_id = u`. -/
def updateBalance : List (String × Int) → String → Int → List (String × Int)
  | [], _, _ => []
  | e :: t, u, b => (if e.1 == u then (u, b) else e) :: updateBalance t u b

/-- `DatabaseStorage.getCredits`. -/
def getCredits (s : LedgerState) (u : String) : Option Int :=
  lookupBalance s.credits u

/-- `DatabaseStorage.initCredits`: returns the existing row unchanged if
present; otherwise inserts the row and logs one `init` entry. The second
component is the balance of the returned `Credit` row. -/
def initCredits (s : LedgerState) (userId : String) (balance : Int) :
    LedgerState × Int :=
  match getCredits s userId with
  | some b => (s, b)
  | none =>
      ({ credits := s.credits ++ [(userId, balance)],
         logs := s.logs ++
           [{ userId := userId, action := "init", amount := balance,
              description := "Initial credit allocation" }] },
       balance)

/-- `DatabaseStorage.deductCredits`: returns `none` (JS `undefined`) when
no row exists or the balance is below `amount`; otherwise writes the
decremented balance and appends a `-amount` log entry. -/
def deductCredits (s : LedgerState) (userId : String) (amount : Int)
    (action description : String) : LedgerState × Option Int :=
  match getCredits s userId with
  | none => (s, none)
  | some bal =>
      if bal < amount then (s, none)
      else
        ({ credits := updateBalance s.credits userId (bal - amount),
           logs := s.logs ++
             [{ userId := userId, action := action, amount := -amount,
                description := description }] },
         some (bal - amount))

/-- `DatabaseStorage.addCredits`: falls back to `initCredits` for a user
without a row; otherwise increments the balance and appends a positive
log entry. -/
def addCredits (s : LedgerState) (userId : String) (amount : Int)
    (action description : String) : LedgerState × Option Int :=
  match getCredits s userId with
  | none =>
      let r := initCredits s userId amount
      (r.1, some r.2)
  | some bal =>
      ({ credits := updateBalance s.credits userId (bal + amount),
         logs := s.logs ++
           [{ userId := userId, action := action, amount := amount,
              description := description }] },
       some (bal + amount))

/-- Sum of the log amounts belonging to user `u`. -/
def logSumOf (logs : List CreditLogEntry) (u : String) : Int :=
  ((logs.filter (fun e => e.userId == u)).map (fun e => e.amount)).sum

/-- One ledger operation of the sequences quantified over by the spec. -/
inductive LedgerOp where
  | init (userId : String) (balance : Int)
  | deduct (userId : String) (amount : Int) (action description : String)
  | add (userId : String) (amount : Int) (action description : String)
  deriving Repr, DecidableEq

/-- State effect of one ledger operation. -/
def applyOp (s : LedgerState) : LedgerOp → LedgerState
  | .init u b => (initCredits s u b).1
  | .deduct u a act d => (deductCredits s u a act d).1
  | .add u a act d => (addCredits s u a act d).1

/-- Run a sequence of ledger operations from the empty database. -/
def runOps (ops : List LedgerOp) : LedgerState :=
  ops.foldl applyOp { credits := [], logs := [] }

/-- The ledger invariant of the spec: for every user the log amounts sum
to the current balance (0 for a user without a row). -/
def LedgerInv (s : LedgerState) : Prop :=
  ∀ u : String, logSumOf s.logs u = (getCredits s u).getD 0

/-! ## Interleaving model of two concurrent `deductCredits` calls

`DatabaseStorage.deductCredits` performs its read (`getCredits`) and its
conditional write as separate database operations.  Each call is modelled
as two atomic micro-steps: a read that captures the current row, and a
write that re-runs the balance check on the captured value and then
writes `captured - amount`, exactly as the source does. -/

/-- The in-flight state of one `deductCredits` call: the captured read
(outer `none` = not yet executed) and the returned value (outer `none` =
not yet returned; `some none` = returned `undefined`). -/
structure DebitCall where
  amount : Int
  readVal : Option (Option Int)
  result : Option (Option Int)
  deriving Repr, DecidableEq

/-- Shared database plus the two in-flight calls. -/
structure RaceState where
  ledger : LedgerState
  t1 : DebitCall
  t2 : DebitCall
  deriving Repr, DecidableEq

/-- One scheduler step: which call performs its read or its write. -/
inductive RaceStep where
  | read1 | write1 | read2 | write2
  deriving Repr, DecidableEq

/-- The `await this.getCredits(userId)` line of `deductCredits`. -/
def debitRead (s : LedgerState) (u : String) (t : DebitCall) : DebitCall :=
  { t with readVal := some (getCredits s u) }

/-- The rest of `deductCredits`: the `!current || current.balance < amount`
check against the captured row, then the unconditional write of
`current.balance - amount` and the log insert. -/
def debitWrite (s : LedgerState) (u : String) (act d : String)
    (t : DebitCall) : LedgerState × DebitCall :=
  match t.readVal with
  | none => (s, t)
  | some none => (s, { t with result := some none })
  | some (some bal) =>
      if bal < t.amount then (s, { t with result := some none })
      else
        ({ credits := updateBalance s.credits u (bal - t.amount),
           logs := s.logs ++
             [{ userId := u, action := act, amount := -t.amount,
                description := d }] },
         { t with result := some (some (bal - t.amount)) })

/-- Apply one scheduler step. -/
def raceStep (u : String) (act d : String) (c : RaceState) :
    RaceStep → RaceState
  | .read1 => { c with t1 := debitRead c.ledger u c.t1 }
  | .read2 => { c with t2 := debitRead c.ledger u c.t2 }
  | .write1 =>
      let r := debitWrite c.ledger u act d c.t1
      { c with ledger := r.1, t1 := r.2 }
  | .write2 =>
      let r := debitWrite c.ledger u act d c.t2
      { c with ledger := r.1, t2 := r.2 }

/-- Run two concurrent `deductCredits` calls of `a1` and `a2` under a
given interleaving. -/
def runRace (u : String) (act d : String) (s0 : LedgerState)
    (a1 a2 : Int) (sched : List RaceStep) : RaceState :=
  sched.foldl (raceStep u act d)
    { ledger := s0,
      t1 := { amount := a1, readVal := none, result := none },
      t2 := { amount := a2, readVal := none, result := none } }

/-- A ledger holding a single user `u` with balance 10. -/
def ledgerTen : LedgerState := runOps [LedgerOp.init "u" 10]

/-- A ledger holding a single user `u` with balance 5. -/
def ledgerFive : LedgerState := runOps [LedgerOp.init "u" 5]

/-! ## Bookings (schema row, `DatabaseStorage` methods, route handlers) -/

/-- The fields of a `bookings` row that the modelled operations read or
write (timestamps and the optional `postId` / `workerSlug` references are
not consulted by any modelled operation). -/
structure Booking where
  buyerUid : String
  tier : String
  basePay : Int
  platformFee : Int
  boost : String
  boostFee : Int
  totalAmount : Int
  status : String
  paymentMethod : String
  stripeSessionId : Option String
  stripePaymentIntentId : Option String
  paymentStructure : String
  depositAmount : Option Int
  finalAmount : Option Int
  depositStatus : Option String
  finalStatus : Option String
  depositStripeSessionId : Option String
  finalStripeSessionId : Option String
  escrowStatus : String
  deriving Repr, DecidableEq

/-- The TypeScript union type `"deposit" | "final"`. -/
inductive Installment where
  | deposit | final
  deriving Repr, DecidableEq

/-- `DatabaseStorage.updateBookingStatus`. -/
def updateBookingStatus (b : Booking) (status : String) : Booking :=
  { b with status := status }

/-- `DatabaseStorage.updateBookingEscrow` (the timestamp columns it also
sets are not modelled). -/
def updateBookingEscrow (b : Booking) (escrowStatus : String) : Booking :=
  { b with escrowStatus := escrowStatus }

/-- `DatabaseStorage.updateBookingInstallment`: writes the chosen
installment status (and session id when provided), then recomputes the
parent `status` from the post-write installment statuses whenever the
booking is `split_50_50`. -/
def updateBookingInstallment (b : Booking) (installment : Installment)
    (status : String) (stripeSessionId : Option String) : Booking :=
  let b1 :=
    match installment with
    | .deposit =>
        { b with depositStatus := some status,
                 depositStripeSessionId :=
                   match stripeSessionId with
                   | some sid => some sid
                   | none => b.depositStripeSessionId }
    | .final =>
        { b with finalStatus := some status,
                 finalStripeSessionId :=
                   match stripeSessionId with
                   | some sid => some sid
                   | none => b.finalStripeSessionId }
  if b1.paymentStructure == "split_50_50" then
    if b1.depositStatus == some "paid" && b1.finalStatus == some "paid" then
      updateBookingStatus b1 "confirmed"
    else if b1.depositStatus == some "paid" && b1.finalStatus == some "pending" then
      updateBookingStatus b1 "deposit_paid"
    else if b1.depositStatus == some "submitted" || b1.finalStatus == some "submitted" then
      updateBookingStatus b1 "payment_submitted"
    else b1
  else b1

/-- Installment statuses after the write phase of
`updateBookingInstallment` (the post-write values the recompute reads). -/
def depAfter (b : Booking) (inst : Installment) (st : String) : Option String :=
  match inst with | .deposit => some st | .final => b.depositStatus

/-- Final-installment analogue of `depAfter`. -/
def finAfter (b : Booking) (inst : Installment) (st : String) : Option String :=
  match inst with | .deposit => b.finalStatus | .final => some st

/-- `Math.ceil(T / 2)` for an integer `T` (ceiling division by 2). -/
def ceilHalf (T : Int) : Int := Int.ediv (T + 1) 2

/-- The booking constructed by the `POST /api/bookings` handler from the
computed cents total (source lines building the `storage.createBooking`
argument): `split_50_50` gets the ceiling half as deposit, the remainder
as final, and pending installment statuses; the status always starts at
`pending_payment`.  `paymentMethod` and `escrowStatus` take their schema
defaults. -/
def createBookingRecord (buyerUid tier : String) (basePay : Int)
    (platformFee : Int) (boostFee : Int) (boost : String)
    (totalAmountCents : Int) (payStructure : String) : Booking :=
  let isSplit := payStructure == "split_50_50"
  { buyerUid := buyerUid, tier := tier, basePay := basePay,
    platformFee := platformFee, boost := boost, boostFee := boostFee,
    totalAmount := totalAmountCents,
    status := "pending_payment",
    paymentMethod := "external",
    stripeSessionId := none, stripePaymentIntentId := none,
    paymentStructure := payStructure,
    depositAmount := if isSplit then some (ceilHalf totalAmountCents) else none,
    finalAmount := if isSplit then some (totalAmountCents - ceilHalf totalAmountCents) else none,
    depositStatus := if isSplit then some "pending" else none,
    finalStatus := if isSplit then some "pending" else none,
    depositStripeSessionId := none, finalStripeSessionId := none,
    escrowStatus := "none" }

/-- `POST /api/bookings/:id/mark-paid` (after authentication and the
404 check): buyer-only; split bookings need a valid installment name and
reject `final` before the deposit is `paid`; full-upfront bookings go
straight to `payment_submitted`. -/
def markPaidHandler (b : Booking) (callerUid : String)
    (installment : Option String) : Except String Booking :=
  if b.buyerUid != callerUid then .error "Not your booking"
  else if b.paymentStructure == "split_50_50" then
    match installment with
    | some "deposit" => .ok (updateBookingInstallment b .deposit "submitted" none)
    | some "final" =>
        if b.depositStatus != some "paid" then
          .error "Deposit must be confirmed before paying the final installment"
        else .ok (updateBookingInstallment b .final "submitted" none)
    | _ => .error "Must specify installment: deposit or final"
  else .ok (updateBookingStatus b "payment_submitted")

/-- `POST /api/bookings/:id/confirm` (admin-only): a split booking with a
valid installment name marks that installment `paid` (triggering the
derived-status recompute); otherwise the status is set to `confirmed`
directly. -/
def confirmHandler (b : Booking) (callerIsAdmin : Bool)
    (installment : Option String) : Except String Booking :=
  if !callerIsAdmin then .error "Admin access required"
  else if b.paymentStructure == "split_50_50" then
    match installment with
    | some "deposit" => .ok (updateBookingInstallment b .deposit "paid" none)
    | some "final" => .ok (updateBookingInstallment b .final "paid" none)
    | _ => .ok (updateBookingStatus b "confirmed")
  else .ok (updateBookingStatus b "confirmed")

/-- `POST /api/bookings/:id/cancel`: buyer or admin; sets the status to
`cancelled` without inspecting the current status. -/
def cancelHandler (b : Booking) (callerUid : String)
    (callerIsAdmin : Bool) : Except String Booking :=
  if b.buyerUid != callerUid && !callerIsAdmin then .error "Not authorized"
  else .ok (updateBookingStatus b "cancelled")

/-! ## Escrow handlers

The payment provider is an external collaborator: the session id it
returns, the checkout-session payment status, the payment-intent id and
the payment-intent status are parameters of the handlers. -/

/-- `POST /api/escrow/reserve` (after authentication and the 404 check):
buyer-only, requires `status = "pending_payment"` and
`escrowStatus ≠ "authorized"`; on success stores the created provider
session id and switches `paymentMethod` to `"escrow"`
(`updateBookingStripeInfo`). -/
def reserveEscrowHandler (b : Booking) (callerUid : String)
    (sessionId : String) : Except String Booking :=
  if b.buyerUid != callerUid then .error "Not your booking"
  else if b.status != "pending_payment" then
    .error "Booking is not awaiting payment"
  else if b.escrowStatus == "authorized" then
    .error "Payment already reserved in escrow"
  else .ok { b with stripeSessionId := some sessionId,
                    paymentMethod := "escrow" }

/-- Result of `POST /api/escrow/confirm-reservation`: a 4xx rejection, a
`success: false` poll answer, the idempotent already-authorized success,
or the authorizing success. -/
inductive ConfirmEscrowResult where
  | rejected (msg : String)
  | notReady (msg : String)
  | alreadyAuthorized
  | authorized (b : Booking)
  deriving Repr, DecidableEq

/-- `POST /api/escrow/confirm-reservation`: buyer-only; a no-op success
when already authorized; otherwise polls the provider session and, when
the payment intent `requires_capture`, records the intent id, sets
`escrowStatus = "authorized"` and advances the status to
`payment_submitted`. -/
def confirmEscrowHandler (b : Booking) (callerUid : String)
    (bodySessionId : Option String) (sessionPaymentStatus : String)
    (sessionPaymentIntent : Option String) (intentStatus : String) :
    ConfirmEscrowResult :=
  if b.buyerUid != callerUid then .rejected "Not your booking"
  else if b.escrowStatus == "authorized" then .alreadyAuthorized
  else
    match (match bodySessionId with
           | some sid => some sid
           | none => b.stripeSessionId) with
    | none => .rejected "No checkout session found"
    | some _ =>
        if sessionPaymentStatus != "paid" then .notReady "Checkout session not paid"
        else
          match sessionPaymentIntent with
          | none => .notReady "Checkout session not paid"
          | some pid =>
              if intentStatus == "requires_capture" then
                .authorized
                  (updateBookingStatus
                    (updateBookingEscrow
                      { b with stripePaymentIntentId := some pid }
                      "authorized")
                    "payment_submitted")
              else .notReady "Payment intent not ready"

/-- `POST /api/escrow/release`: buyer or admin; requires
`escrowStatus = "authorized"` and a stored payment-intent id; captures
the funds, then `escrowStatus = "captured"` and `status = "confirmed"`. -/
def releaseEscrowHandler (b : Booking) (callerUid : String)
    (callerIsAdmin : Bool) : Except String Booking :=
  if b.buyerUid != callerUid && !callerIsAdmin then
    .error "Only the host or admin can release escrow funds"
  else if b.escrowStatus != "authorized" then
    .error "No authorized escrow to release"
  else
    match b.stripePaymentIntentId with
    | none => .error "No payment intent found"
    | some _ =>
        .ok (updateBookingStatus (updateBookingEscrow b "captured") "confirmed")

/-- `POST /api/escrow/cancel`: buyer or admin; requires
`escrowStatus = "authorized"` and a stored payment-intent id; voids the
hold, then `escrowStatus = "cancelled"` and `status = "cancelled"`. -/
def cancelEscrowHandler (b : Booking) (callerUid : String)
    (callerIsAdmin : Bool) : Except String Booking :=
  if b.buyerUid != callerUid && !callerIsAdmin then
    .error "Only the host or admin can cancel escrow"
  else if b.escrowStatus != "authorized" then
    .error "No authorized escrow to cancel"
  else
    match b.stripePaymentIntentId with
    | none => .error "No payment intent found"
    | some _ =>
        .ok (updateBookingStatus (updateBookingEscrow b "cancelled") "cancelled")

/-! ## Pricing (`shared/pricing.ts`, `shared/schema.ts` fee tables)

The fee tables hold dollar amounts with fractional values; they are
modelled as `Rat` with the exact values of the source literals. -/

/-- `TIER_FEES[tier] || 0`. -/
def TIER_FEES (tier : String) : Rat :=
  if tier == "Slots" then 0.25
  else if tier == "Missions" then 0.5
  else if tier == "Tasks" then 1
  else if tier == "Projects" then 2
  else if tier == "Chances" then 2.5
  else 0

/-- `BOOST_FEES[boost]?.fee || 0`. -/
def boostFeeOf (boost : String) : Rat :=
  if boost == "None" then 0
  else if boost == "24h Boost" then 3
  else if boost == "72h Boost" then 7
  else if boost == "7 Day Featured" then 15
  else 0

/-- `BOOST_FEES[boost]?.hours || 0`. -/
def boostHoursOf (boost : String) : Nat :=
  if boost == "None" then 0
  else if boost == "24h Boost" then 24
  else if boost == "72h Boost" then 72
  else if boost == "7 Day Featured" then 168
  else 0

/-- The record returned by `calculateTotal`. -/
structure PricingResult where
  basePay : Rat
  tierFee : Rat
  boostFee : Rat
  totalAmount : Rat
  deriving Repr, DecidableEq

/-- `calculateTotal` from `shared/pricing.ts`. -/
def calculateTotal (basePay : Rat) (tier boost : String) : PricingResult :=
  let tierFee := TIER_FEES tier
  let boostFee := boostFeeOf boost
  { basePay := basePay, tierFee := tierFee, boostFee := boostFee,
    totalAmount := basePay + tierFee + boostFee }

/-- JavaScript `Math.round` (half-up) on an exact rational. -/
def jsRound (q : Rat) : Int := ⌊q + 1 / 2⌋

/-- The pricing-and-conversion pipeline of the `POST /api/bookings`
handler: `calculateTotal` on the dollar inputs, then `Math.round(x * 100)`
into cents for `platformFee`, `boostFee` and `totalAmount`, then the
booking record construction. -/
def bookingCreateHandler (buyerUid : String) (basePay : Int)
    (tier boost payStructure : String) : Booking :=
  let pricing := calculateTotal (basePay : Rat) tier boost
  createBookingRecord buyerUid tier basePay
    (jsRound (pricing.tierFee * 100))
    (jsRound (pricing.boostFee * 100))
    boost
    (jsRound (pricing.totalAmount * 100))
    payStructure

/-! ## Post creation (`POST /api/posts` handler and its helpers) -/

/-- The credit-cost tables of `shared/credits.ts` /
`CREDIT_COSTS.post[tier] || 1`. -/
def getPostCreditCost (tier : String) : Int :=
  if tier == "Slots" then 1
  else if tier == "Missions" then 2
  else if tier == "Tasks" then 3
  else if tier == "Projects" then 4
  else if tier == "Chances" then 5
  else 1

/-- `getEventCreditCost` from `shared/credits.ts`. -/
def getEventCreditCost (isNsfw : Bool) : Int := if isNsfw then 3 else 1

/-- `CREDIT_COSTS.boost[boost] || 0`. -/
def getBoostCreditCost (boost : String) : Int :=
  if boost == "None" then 0
  else if boost == "24h Boost" then 2
  else if boost == "72h Boost" then 4
  else if boost == "7 Day Featured" then 8
  else 0

/-- `canAfford` from `shared/credits.ts`: an elite plan always affords. -/
def canAfford (balance cost : Int) (plan : String) : Bool :=
  if plan == "elite" then true else balance >= cost

/-- `canUseBoosts`: `getPlanDetails(plan).boostsEnabled`, where unknown
plans fall back to the free plan. -/
def canUseBoosts (plan : String) : Bool :=
  plan == "pro" || plan == "elite"

/-- `hasUnlimitedPosts`: only the elite plan. -/
def hasUnlimitedPosts (plan : String) : Bool := plan == "elite"

/-- `ensureCredits`: initialize with `INITIAL_CREDITS = 3` when absent. -/
def ensureCredits (s : LedgerState) (userId : String) : LedgerState × Int :=
  match getCredits s userId with
  | some b => (s, b)
  | none => initCredits s userId 3

/-- `getBoostExpiry` from `shared/pricing.ts`, with time as an abstract
hour count: `null` for a zero-duration boost, otherwise `now + hours`. -/
def getBoostExpiry (boost : String) (now : Nat) : Option Nat :=
  let hours := boostHoursOf boost
  if hours == 0 then none else some (now + hours)

/-- `ALL_EVENT_CATEGORIES` from `shared/schema.ts`. -/
def ALL_EVENT_CATEGORIES : List String :=
  ["Club Party", "Festival", "Concert", "Job Fair",
   "Open Mic", "Art Show", "Pop-Up Shop", "Community Meetup",
   "Sports Event", "Block Party", "Networking Event", "Showcase",
   "Other Event", "Adult Club Event"]

/-- Key membership in the `LICENSED_CATEGORIES` table. -/
def isLicensedCategory (c : String) : Bool :=
  c == "Warehouse & Logistics" || c == "Skilled Trades" ||
  c == "Studio & Engineering" || c == "Fitness & Training" ||
  c == "Chefs & Culinary"

/-- A `verification_requests` row as read by the handlers. -/
structure VerificationRecord where
  status : String
  ageConfirmed : Bool
  deriving Repr, DecidableEq

/-- `verifications.some(v => v.status === "approved" && v.ageConfirmed)`. -/
def isAgeVerifiedOf (vs : List VerificationRecord) : Bool :=
  vs.any (fun v => v.status == "approved" && v.ageConfirmed)

/-- The fields of the parsed `POST /api/posts` body that the handler
reads (`nsfw` defaults to `false`, `boostLevel` may be absent). -/
structure PostInput where
  postType : String
  title : String
  category : String
  tier : String
  pay : Int
  promoterName : String
  nsfw : Bool
  boostLevel : Option String
  deriving Repr, DecidableEq

/-- The `posts` row created by `storage.createPost({...input, userId,
boostExpiresAt})`, restricted to the modelled input fields. -/
structure Post where
  userId : String
  postType : String
  title : String
  category : String
  tier : String
  pay : Int
  promoterName : String
  nsfw : Bool
  boostLevel : Option String
  boostExpiresAt : Option Nat
  deriving Repr, DecidableEq

/-- The read-only collaborators of the posts handler: the caller's plan
(`getUserPlan`), their verification rows, the approved professional
verification lookup, the ledger and the clock. -/
structure PostsEnv where
  plan : String
  verifications : List VerificationRecord
  hasApprovedProVerification : String → Bool
  ledger : LedgerState
  now : Nat

/-- The row handed to `storage.createPost`. -/
def mkPost (input : PostInput) (userId : String) (now : Nat) : Post :=
  { userId := userId, postType := input.postType, title := input.title,
    category := input.category, tier := input.tier, pay := input.pay,
    promoterName := input.promoterName, nsfw := input.nsfw,
    boostLevel := input.boostLevel,
    boostExpiresAt := getBoostExpiry (input.boostLevel.getD "None") now }

/-- The `POST /api/posts` handler (after authentication): event-category
validation, the Adult-Club-Event and NSFW normalizations of `input.nsfw`,
the age-verification and professional-verification gates, the boost plan
gate, the credit cost computation and debit, and finally the
`createPost` call.  Returns the created row and the ledger after the
debit. -/
def postsCreateHandler (input : PostInput) (userId : String)
    (env : PostsEnv) : Except String (Post × LedgerState) :=
  let isEvent := input.postType == "event"
  if isEvent && !(ALL_EVENT_CATEGORIES.contains input.category) then
    .error "Invalid event category"
  else
    let input1 :=
      if isEvent && input.category == "Adult Club Event" then
        { input with nsfw := true }
      else input
    if (input1.nsfw || input1.category == "Adult/NSFW" ||
        input1.category == "Adult Club Event") &&
       !(isAgeVerifiedOf env.verifications) then
      .error "Age-verified ID required to post Adult/NSFW content"
    else
      let input2 :=
        if input1.nsfw || input1.category == "Adult/NSFW" ||
           input1.category == "Adult Club Event" then
          { input1 with nsfw := true }
        else input1
      if !isEvent && isLicensedCategory input2.category &&
         !(env.hasApprovedProVerification input2.category) then
        .error "Professional verification required"
      else if (match input2.boostLevel with
               | some bl => bl != "None" && !(canUseBoosts env.plan)
               | none => false) then
        .error "Boosts require a Pro or Elite plan."
      else
        let isNsfwEvent := isEvent &&
          (input2.nsfw || input2.category == "Adult Club Event")
        let postCost :=
          if isEvent then getEventCreditCost isNsfwEvent
          else getPostCreditCost input2.tier
        let boostCost := getBoostCreditCost (input2.boostLevel.getD "None")
        let totalCost := postCost + boostCost
        if hasUnlimitedPosts env.plan then
          .ok (mkPost input2 userId env.now, env.ledger)
        else
          let r := ensureCredits env.ledger userId
          if !(canAfford r.2 totalCost env.plan) then
            .error "Insufficient credits"
          else
            let actionLabel := if isEvent then "create_event" else "create_post"
            let desc :=
              if isEvent then
                "Posted event: " ++ input2.title ++ " (" ++ input2.category ++
                  ", boost: " ++ input2.boostLevel.getD "None" ++ ")"
              else
                "Created post: " ++ input2.title ++ " (tier: " ++ input2.tier ++
                  ", boost: " ++ input2.boostLevel.getD "None" ++ ")"
            .ok (mkPost input2 userId env.now,
                 (deductCredits r.1 userId totalCost actionLabel desc).1)

/-! ## Concrete fixtures used by witnesses and counterexamples -/

/-- A confirmed full-upfront booking owned by `alice`. -/
def bConfirmed : Booking :=
  updateBookingStatus
    (createBookingRecord "alice" "Tasks" 99 100 0 "None" 10000 "full_upfront")
    "confirmed"

/-- A freshly created split booking owned by `alice`. -/
def bSplitFresh : Booking :=
  createBookingRecord "alice" "Slots" 100 25 0 "None" 10000 "split_50_50"

/-- An event post input for the Adult Club Event category that explicitly
asks for `nsfw = false`. -/
def adultEventInput : PostInput :=
  { postType := "event", title := "t", category := "Adult Club Event",
    tier := "Slots", pay := 0, promoterName := "pr", nsfw := false,
    boostLevel := none }

/-- An environment whose caller is age-verified, on the free plan, with
an uninitialized credit row. -/
def adultEventEnv : PostsEnv :=
  { plan := "free",
    verifications := [{ status := "approved", ageConfirmed := true }],
    hasApprovedProVerification := fun _ => false,
    ledger := { credits := [], logs := [] },
    now := 0 }

/-- The post row produced by `postsCreateHandler adultEventInput`. -/
def adultEventPost : Post :=
  { userId := "usr", postType := "event", title := "t",
    category := "Adult Club Event", tier := "Slots", pay := 0,
    promoterName := "pr", nsfw := true, boostLevel := none,
    boostExpiresAt := none }

/-- The ledger produced by `postsCreateHandler adultEventInput`: the lazy
`init` of 3 credits followed by the 3-credit NSFW-event debit. -/
def adultEventLedger : LedgerState :=
  { credits := [("usr", 0)],
    logs :=
      [{ userId := "usr", action := "init", amount := 3,
         description := "Initial credit allocation" },
       { userId := "usr", action := "create_event", amount := -3,
         description := "Posted event: t (Adult Club Event, boost: None)" }] }

/-! ### Association-list lemmas -/

theorem lookupBalance_updateBalance_self (l : List (String × Int))
    (u : String) (b : Int) (h : (lookupBalance l u).isSome) :
    lookupBalance (updateBalance l u b) u = some b := by
  induction l with
  | nil => simp [lookupBalance] at h
  | cons e t ih =>
      by_cases he : e.1 = u
      · simp [lookupBalance, updateBalance, he]
      · simp only [lookupBalance, updateBalance, beq_iff_eq, he,
          if_false] at h ⊢
        exact ih h

theorem lookupBalance_updateBalance_ne (l : List (String × Int))
    (u v : String) (b : Int) (hvu : v ≠ u) :
    lookupBalance (updateBalance l u b) v = lookupBalance l v := by
  induction l with
  | nil => simp [lookupBalance, updateBalance]
  | cons e t ih =>
      by_cases he : e.1 = u
      · have huv : ¬ (u = v) := fun h => hvu h.symm
        have hev : ¬ (e.1 = v) := by rw [he]; exact huv
        simp only [updateBalance, beq_iff_eq, he, if_true,
          lookupBalance, huv, if_false, hev]
        exact ih
      · by_cases hev : e.1 = v
        · simp [lookupBalance, updateBalance, he, hev, hvu]
        · simp only [updateBalance, beq_iff_eq, he, if_false,
            lookupBalance, hev]
          exact ih

theorem lookupBalance_append_none (l : List (String × Int)) (u : String)
    (b : Int) (h : lookupBalance l u = none) :
    lookupBalance (l ++ [(u, b)]) u = some b := by
  induction l with
  | nil => simp [lookupBalance]
  | cons e t ih =>
      by_cases he : e.1 = u
      · simp [lookupBalance, he] at h
      · simp only [lookupBalance, beq_iff_eq, he, if_false] at h
        simp only [List.cons_append, lookupBalance, beq_iff_eq, he, if_false]
        exact ih h

theorem lookupBalance_append_ne (l : List (String × Int)) (u v : String)
    (b : Int) (hvu : v ≠ u) :
    lookupBalance (l ++ [(u, b)]) v = lookupBalance l v := by
  induction l with
  | nil =>
      have huv : ¬ (u = v) := fun h => hvu h.symm
      simp [lookupBalance, huv]
  | cons e t ih =>
      by_cases hev : e.1 = v
      · simp [lookupBalance, hev]
      · simp only [List.cons_append, lookupBalance, beq_iff_eq, hev,
          if_false]
        exact ih

theorem logSumOf_append_single (L : List CreditLogEntry)
    (e : CreditLogEntry) (u : String) :
    logSumOf (L ++ [e]) u =
      logSumOf L u + (if e.userId = u then e.amount else 0) := by
  by_cases h : e.userId = u <;>
    simp [logSumOf, List.filter_append, h]

/-! ### Preservation of the ledger invariant -/

theorem ledgerInv_initCredits (s : LedgerState) (u : String) (b : Int)
    (hs : LedgerInv s) : LedgerInv (initCredits s u b).1 := by
  unfold initCredits
  cases hcur : getCredits s u with
  | some b0 => simpa using hs
  | none =>
      simp only [getCredits] at hcur
      intro v
      by_cases hv : v = u
      · subst hv
        have hb : lookupBalance (s.credits ++ [(v, b)]) v = some b :=
          lookupBalance_append_none s.credits v b hcur
        have hold := hs v
        simp only [getCredits, hcur, Option.getD_none] at hold
        simp [getCredits, logSumOf_append_single, hb, hold]
      · have hb := lookupBalance_append_ne s.credits u v b hv
        have hold := hs v
        have hvne : ¬ (u = v) := fun h => hv h.symm
        simp only [getCredits] at hold ⊢
        simp [logSumOf_append_single, hb, hvne, hold]

theorem ledgerInv_deductCredits (s : LedgerState) (u : String) (a : Int)
    (act d : String) (hs : LedgerInv s) :
    LedgerInv (deductCredits s u a act d).1 := by
  unfold deductCredits
  cases hcur : getCredits s u with
  | none => simpa using hs
  | some bal =>
      by_cases hlt : bal < a
      · simpa [hlt] using hs
      · simp only [hlt, if_false]
        simp only [getCredits] at hcur
        intro v
        by_cases hv : v = u
        · subst hv
          have hsome : (lookupBalance s.credits v).isSome := by
            simp [hcur]
          have hb := lookupBalance_updateBalance_self s.credits v (bal - a) hsome
          have hold := hs v
          simp only [getCredits, hcur, Option.getD_some] at hold
          simp [getCredits, logSumOf_append_single, hb, hold]
          omega
        · have hb := lookupBalance_updateBalance_ne s.credits u v (bal - a) hv
          have hold := hs v
          have hvne : ¬ (u = v) := fun h => hv h.symm
          simp only [getCredits] at hold ⊢
          simp [logSumOf_append_single, hb, hvne, hold]

theorem ledgerInv_addCredits (s : LedgerState) (u : String) (a : Int)
    (act d : String) (hs : LedgerInv s) :
    LedgerInv (addCredits s u a act d).1 := by
  unfold addCredits
  cases hcur : getCredits s u with
  | none =>
      simpa using ledgerInv_initCredits s u a hs
  | some bal =>
      simp only [getCredits] at hcur
      intro v
      by_cases hv : v = u
      · subst hv
        have hsome : (lookupBalance s.credits v).isSome := by
          simp [hcur]
        have hb := lookupBalance_updateBalance_self s.credits v (bal + a) hsome
        have hold := hs v
        simp only [getCredits, hcur, Option.getD_some] at hold
        simp [getCredits, logSumOf_append_single, hb, hold]
      · have hb := lookupBalance_updateBalance_ne s.credits u v (bal + a) hv
        have hold := hs v
        have hvne : ¬ (u = v) := fun h => hv h.symm
        simp only [getCredits] at hold ⊢
        simp [logSumOf_append_single, hb, hvne, hold]

theorem ledgerInv_applyOp (s : LedgerState) (op : LedgerOp)
    (hs : LedgerInv s) : LedgerInv (applyOp s op) := by
  cases op with
  | init u b => exact ledgerInv_initCredits s u b hs
  | deduct u a act d => exact ledgerInv_deductCredits s u a act d hs
  | add u a act d => exact ledgerInv_addCredits s u a act d hs

theorem ledgerInv_foldl (ops : List LedgerOp) :
    ∀ s : LedgerState, LedgerInv s → LedgerInv (ops.foldl applyOp s) := by
  induction ops with
  | nil => intro s hs; simpa using hs
  | cons op t ih =>
      intro s hs
      exact ih (applyOp s op) (ledgerInv_applyOp s op hs)

/-- C1. After any sequence of init / deduct / add operations, every user
log sum equals the current balance. -/
theorem C1_ledger_invariant (ops : List LedgerOp) (u : String) :
    logSumOf (runOps ops).logs u = (getCredits (runOps ops) u).getD 0 := by
  have hinit : LedgerInv { credits := [], logs := [] } := by
    intro v; simp [logSumOf, getCredits, lookupBalance]
  exact ledgerInv_foldl ops _ hinit u

/-! ### Characterization of `updateBookingInstallment` on split bookings -/

theorem ubi_fields (b : Booking) (inst : Installment) (st : String)
    (sess : Option String) (hsplit : b.paymentStructure = "split_50_50") :
    (updateBookingInstallment b inst st sess).depositStatus = depAfter b inst st
    ∧ (updateBookingInstallment b inst st sess).finalStatus = finAfter b inst st
    ∧ (updateBookingInstallment b inst st sess).paymentStructure = "split_50_50"
    ∧ (updateBookingInstallment b inst st sess).status =
        (if depAfter b inst st == some "paid" && finAfter b inst st == some "paid"
         then "confirmed"
         else if depAfter b inst st == some "paid" && finAfter b inst st == some "pending"
         then "deposit_paid"
         else if depAfter b inst st == some "submitted" || finAfter b inst st == some "submitted"
         then "payment_submitted"
         else b.status) := by
  cases inst <;>
    (refine ⟨?_, ?_, ?_, ?_⟩ <;>
      (simp only [updateBookingInstallment, depAfter, finAfter, hsplit,
        beq_self_eq_true, if_true]
       split_ifs <;> simp_all [updateBookingStatus]))

/-! ## Claim C2: atomicity of concurrent debits -/

/-- C2. The source `deductCredits` is a non-atomic read-then-write, so
two concurrent debits of 6 against balance 10 can BOTH succeed under the
interleaving read1, read2, write1, write2 (each returning balance 4, and
writing two -6 log entries whose user sum -2 no longer matches the
balance 4), while the sequential interleaving gives the one-success /
one-failure outcome the claim demands.  This is evidence for the claim
being a code bug relative to the concurrency requirement of the spec. -/
theorem C2_concurrent_debits_race :
    (runRace "u" "booking" "d" ledgerTen 6 6
        [.read1, .read2, .write1, .write2]).t1.result = some (some 4)
    ∧ (runRace "u" "booking" "d" ledgerTen 6 6
        [.read1, .read2, .write1, .write2]).t2.result = some (some 4)
    ∧ getCredits (runRace "u" "booking" "d" ledgerTen 6 6
        [.read1, .read2, .write1, .write2]).ledger "u" = some 4
    ∧ logSumOf (runRace "u" "booking" "d" ledgerTen 6 6
        [.read1, .read2, .write1, .write2]).ledger.logs "u" = -2
    ∧ (runRace "u" "booking" "d" ledgerTen 6 6
        [.read1, .write1, .read2, .write2]).t1.result = some (some 4)
    ∧ (runRace "u" "booking" "d" ledgerTen 6 6
        [.read1, .write1, .read2, .write2]).t2.result = some none
    ∧ getCredits (runRace "u" "booking" "d" ledgerTen 6 6
        [.read1, .write1, .read2, .write2]).ledger "u" = some 4 := by
  decide

/-! ## Claim C3: failure semantics of `deductCredits` -/

/-- C3. `deductCredits` fails (returns the `undefined` sentinel) exactly
when no balance row exists or the balance is below the amount; on failure
the ledger is unchanged; on success the balance is decremented and one
log entry of `-amount` is appended. -/
theorem C3_deductCredits_spec (s : LedgerState) (u : String) (a : Int)
    (act d : String) :
    ((deductCredits s u a act d).2 = none ↔
       getCredits s u = none ∨ ∃ b0, getCredits s u = some b0 ∧ b0 < a)
    ∧ ((deductCredits s u a act d).2 = none → (deductCredits s u a act d).1 = s)
    ∧ (∀ b0 : Int, getCredits s u = some b0 → a ≤ b0 →
        (deductCredits s u a act d).2 = some (b0 - a)
        ∧ getCredits (deductCredits s u a act d).1 u = some (b0 - a)
        ∧ (deductCredits s u a act d).1.logs =
            s.logs ++ [{ userId := u, action := act, amount := -a,
                         description := d }]) := by
  cases hcur : getCredits s u with
  | none =>
      refine ⟨by simp [deductCredits, hcur], by simp [deductCredits, hcur], ?_⟩
      intro b0 hb0
      exact absurd hb0 (by simp)
  | some bal =>
      by_cases hlt : bal < a
      · refine ⟨by simp [deductCredits, hcur, hlt], by simp [deductCredits, hcur, hlt], ?_⟩
        intro b0 hb0 hle
        have : bal = b0 := by injection hb0
        omega
      · refine ⟨by simp [deductCredits, hcur, hlt], by simp [deductCredits, hcur, hlt], ?_⟩
        intro b0 hb0 hle
        have hb : bal = b0 := by injection hb0
        subst hb
        refine ⟨by simp [deductCredits, hcur, hlt], ?_, by simp [deductCredits, hcur, hlt]⟩
        have hcur2 : lookupBalance s.credits u = some bal := hcur
        have hsome : (lookupBalance s.credits u).isSome := by
          simp [hcur2]
        simp [deductCredits, getCredits, hcur2, hlt,
          lookupBalance_updateBalance_self s.credits u (bal - a) hsome]

/-- Witness for C3 at concrete inputs: a debit of 10 against balance 5
fails and leaves the ledger unchanged; a debit of 3 against balance 5
succeeds with new balance 2. -/
theorem C3_deductCredits_spec_witness :
    (deductCredits ledgerFive "u" 10 "booking" "d").1 = ledgerFive
    ∧ (deductCredits ledgerFive "u" 3 "booking" "d").2 = some 2 := by
  refine ⟨(C3_deductCredits_spec ledgerFive "u" 10 "booking" "d").2.1 (by decide), ?_⟩
  have h := ((C3_deductCredits_spec ledgerFive "u" 3 "booking" "d").2.2 5
    (by decide) (by decide)).1
  simpa using h

/-! ## Claim C4: split-booking deposit and final amounts -/

/-- C4. A booking created with `split_50_50` and cents total `T` carries
`depositAmount = ceil(T/2)`, `finalAmount = T - ceil(T/2)` (so the two
sum to `T`), starts at status `pending_payment` with both installment
statuses `pending`; concretely `T = 10000` gives 5000/5000 and
`T = 10001` gives 5001/5000. -/
theorem C4_split_booking_amounts (buyerUid tier boost : String)
    (basePay platformFee boostFee T : Int) :
    (createBookingRecord buyerUid tier basePay platformFee boostFee boost
        T "split_50_50").depositAmount = some (ceilHalf T)
    ∧ (createBookingRecord buyerUid tier basePay platformFee boostFee boost
        T "split_50_50").finalAmount = some (T - ceilHalf T)
    ∧ ceilHalf T + (T - ceilHalf T) = T
    ∧ (createBookingRecord buyerUid tier basePay platformFee boostFee boost
        T "split_50_50").status = "pending_payment"
    ∧ (createBookingRecord buyerUid tier basePay platformFee boostFee boost
        T "split_50_50").depositStatus = some "pending"
    ∧ (createBookingRecord buyerUid tier basePay platformFee boostFee boost
        T "split_50_50").finalStatus = some "pending"
    ∧ (createBookingRecord "x" "Slots" 0 0 0 "None" 10000
        "split_50_50").depositAmount = some 5000
    ∧ (createBookingRecord "x" "Slots" 0 0 0 "None" 10000
        "split_50_50").finalAmount = some 5000
    ∧ (createBookingRecord "x" "Slots" 0 0 0 "None" 10001
        "split_50_50").depositAmount = some 5001
    ∧ (createBookingRecord "x" "Slots" 0 0 0 "None" 10001
        "split_50_50").finalAmount = some 5000 := by
  refine ⟨rfl, rfl, by omega, rfl, rfl, rfl, by decide, by decide, by decide, by decide⟩

/-! ## Claim C8: units of the money-total calculation -/

/-- C8 counterexample: `calculateTotal` does NOT work in cents: with
`basePay = 10000` and tier `Projects` it returns `tierFee = 2` and
`totalAmount = 10002`, not the claimed `tierFee = 200` /
`totalAmount = 10200`. -/
theorem C8_calculateTotal_not_cents :
    (calculateTotal 10000 "Projects" "None").tierFee = 2
    ∧ (calculateTotal 10000 "Projects" "None").boostFee = 0
    ∧ (calculateTotal 10000 "Projects" "None").totalAmount = 10002
    ∧ ¬ ((calculateTotal 10000 "Projects" "None").tierFee = 200
         ∧ (calculateTotal 10000 "Projects" "None").boostFee = 0
         ∧ (calculateTotal 10000 "Projects" "None").totalAmount = 10200) := by
  have h1 : (calculateTotal 10000 "Projects" "None").tierFee = 2 := by
    simp only [calculateTotal, TIER_FEES, boostFeeOf, beq_iff_eq,
      String.reduceEq, reduceIte]
  have h2 : (calculateTotal 10000 "Projects" "None").boostFee = 0 := by
    simp only [calculateTotal, TIER_FEES, boostFeeOf, beq_iff_eq,
      String.reduceEq, reduceIte]
  have h3 : (calculateTotal 10000 "Projects" "None").totalAmount = 10002 := by
    simp only [calculateTotal, TIER_FEES, boostFeeOf, beq_iff_eq,
      String.reduceEq, reduceIte]
    norm_num
  refine ⟨h1, h2, h3, fun hc => ?_⟩
  have : (2 : Rat) = 200 := h1.symm.trans hc.1
  norm_num at this

/-- C8 (amended). `calculateTotal` works in major units (dollars, with
fractional tier fees); the cents conversion `Math.round(x * 100)` happens
in the booking-creation handler: for `basePay = 100` dollars, tier
`Projects`, boost `None`, the dollar result is `tierFee = 2, boostFee =
0, totalAmount = 102`, and the created booking carries the minor-unit
amounts `platformFee = 200`, `boostFee = 0`, `totalAmount = 10200`. -/
theorem C8_money_total_in_cents :
    (calculateTotal 100 "Projects" "None").tierFee = 2
    ∧ (calculateTotal 100 "Projects" "None").boostFee = 0
    ∧ (calculateTotal 100 "Projects" "None").totalAmount = 102
    ∧ (bookingCreateHandler "b" 100 "Projects" "None"
        "full_upfront").platformFee = 200
    ∧ (bookingCreateHandler "b" 100 "Projects" "None"
        "full_upfront").boostFee = 0
    ∧ (bookingCreateHandler "b" 100 "Projects" "None"
        "full_upfront").totalAmount = 10200 := by
  refine ⟨?_, ?_, ?_, ?_, ?_, ?_⟩
  · simp only [calculateTotal, TIER_FEES, boostFeeOf, beq_iff_eq,
      String.reduceEq, reduceIte]
  · simp only [calculateTotal, TIER_FEES, boostFeeOf, beq_iff_eq,
      String.reduceEq, reduceIte]
  · simp only [calculateTotal, TIER_FEES, boostFeeOf, beq_iff_eq,
      String.reduceEq, reduceIte]
    norm_num
  · simp only [bookingCreateHandler, createBookingRecord, calculateTotal,
      TIER_FEES, boostFeeOf, jsRound, beq_iff_eq, String.reduceEq,
      reduceIte]
    norm_num
  · simp only [bookingCreateHandler, createBookingRecord, calculateTotal,
      TIER_FEES, boostFeeOf, jsRound, beq_iff_eq, String.reduceEq,
      reduceIte]
    norm_num
  · simp only [bookingCreateHandler, createBookingRecord, calculateTotal,
      TIER_FEES, boostFeeOf, jsRound, beq_iff_eq, String.reduceEq,
      reduceIte]
    norm_num

/-! ## Claim C9: terminality of `confirmed` and `cancelled` -/

/-- C9 counterexample: terminal states are not enforced.  `bConfirmed`
has status `confirmed`, yet the cancel handler (called by its buyer)
succeeds and moves it to `cancelled`. -/
theorem C9_cancel_confirmed_counterexample :
    bConfirmed.status = "confirmed"
    ∧ cancelHandler bConfirmed "alice" false =
        Except.ok (updateBookingStatus bConfirmed "cancelled")
    ∧ (updateBookingStatus bConfirmed "cancelled").status = "cancelled"
    ∧ (updateBookingStatus bConfirmed "cancelled").status ≠ bConfirmed.status := by
  refine ⟨rfl, rfl, rfl, by decide⟩

/-- C9 (amended). The cancel handler performs no terminality check: for
every booking, an authorized caller (buyer or admin) moves the status to
`cancelled` regardless of the current status — in particular `cancelled`
is reachable from the terminal states `confirmed` and `cancelled`
themselves. -/
theorem C9_cancel_from_any_state (b : Booking) (uid : String)
    (admin : Bool) (h : uid = b.buyerUid ∨ admin = true) :
    cancelHandler b uid admin = .ok (updateBookingStatus b "cancelled")
    ∧ (updateBookingStatus b "cancelled").status = "cancelled" := by
  rcases h with h | h
  · subst h
    simp [cancelHandler, updateBookingStatus]
  · subst h
    simp [cancelHandler, updateBookingStatus]

/-- Witness for C9 (amended) at the concrete confirmed booking. -/
theorem C9_cancel_from_any_state_witness :
    (cancelHandler bConfirmed "alice" false =
        .ok (updateBookingStatus bConfirmed "cancelled")
      ∧ (updateBookingStatus bConfirmed "cancelled").status = "cancelled")
    ∧ bConfirmed.status = "confirmed" :=
  ⟨C9_cancel_from_any_state bConfirmed "alice" false (Or.inl rfl), rfl⟩

/-! ## Claim C5: derived split-booking status -/

/-- C5. After every installment-status write on a `split_50_50` booking
(any installment, any written status, any session id — so any caller of
`updateBookingInstallment`), the parent status is recomputed from the two
post-write installment statuses: both `paid` gives `confirmed`, deposit
`paid` with final `pending` gives `deposit_paid`, and either installment
`submitted` gives `payment_submitted`.  Consequently confirming the
deposit and then the final moves a fresh split booking through
`pending_payment`, `deposit_paid`, `confirmed` in that order, and an
admin confirm without a named installment yields `confirmed` directly. -/
theorem C5_split_status_recompute (b : Booking) (inst : Installment)
    (st : String) (sess : Option String)
    (hsplit : b.paymentStructure = "split_50_50") :
    ((updateBookingInstallment b inst st sess).depositStatus = some "paid" →
      (updateBookingInstallment b inst st sess).finalStatus = some "paid" →
      (updateBookingInstallment b inst st sess).status = "confirmed")
    ∧ ((updateBookingInstallment b inst st sess).depositStatus = some "paid" →
      (updateBookingInstallment b inst st sess).finalStatus = some "pending" →
      (updateBookingInstallment b inst st sess).status = "deposit_paid")
    ∧ ((updateBookingInstallment b inst st sess).depositStatus = some "submitted" ∨
        (updateBookingInstallment b inst st sess).finalStatus = some "submitted" →
      (updateBookingInstallment b inst st sess).status = "payment_submitted")
    ∧ (∀ b0 : Booking, b0.paymentStructure = "split_50_50" →
        b0.status = "pending_payment" → b0.depositStatus = some "pending" →
        b0.finalStatus = some "pending" →
        (updateBookingInstallment b0 .deposit "paid" none).status = "deposit_paid"
        ∧ (updateBookingInstallment
            (updateBookingInstallment b0 .deposit "paid" none)
            .final "paid" none).status = "confirmed")
    ∧ (∀ b1 : Booking, confirmHandler b1 true none =
          .ok (updateBookingStatus b1 "confirmed")
        ∧ (updateBookingStatus b1 "confirmed").status = "confirmed") := by
  obtain ⟨hd, hf, hp, hs⟩ := ubi_fields b inst st sess hsplit
  refine ⟨?_, ?_, ?_, ?_, ?_⟩
  · intro h1 h2
    rw [hd] at h1
    rw [hf] at h2
    rw [hs, h1, h2]
    simp
  · intro h1 h2
    rw [hd] at h1
    rw [hf] at h2
    rw [hs, h1, h2]
    simp
  · intro h1
    rcases h1 with h1 | h1
    · rw [hd] at h1
      rw [hs, h1]
      simp
    · rw [hf] at h1
      rw [hs, h1]
      simp
  · intro b0 h0split h0stat h0dep h0fin
    obtain ⟨hd1, hf1, hp1, hs1⟩ := ubi_fields b0 .deposit "paid" none h0split
    have hstep1 : (updateBookingInstallment b0 .deposit "paid" none).status =
        "deposit_paid" := by
      rw [hs1]
      simp [depAfter, finAfter, h0fin]
    refine ⟨hstep1, ?_⟩
    obtain ⟨hd2, hf2, hp2, hs2⟩ :=
      ubi_fields (updateBookingInstallment b0 .deposit "paid" none)
        .final "paid" none hp1
    rw [hs2]
    simp [depAfter, finAfter, hd1]
  · intro b1
    constructor
    · simp [confirmHandler]
    · rfl

/-- Witness for C5 on a fresh split booking: deposit-confirm gives
`deposit_paid`, then final-confirm gives `confirmed`. -/
theorem C5_split_status_recompute_witness :
    (updateBookingInstallment bSplitFresh .deposit "paid" none).status = "deposit_paid"
    ∧ (updateBookingInstallment (updateBookingInstallment bSplitFresh .deposit "paid" none)
        .final "paid" none).status = "confirmed"
    ∧ bSplitFresh.status = "pending_payment" :=
  ⟨((C5_split_status_recompute bSplitFresh Installment.deposit "paid" none rfl).2.2.2.1
      bSplitFresh rfl rfl rfl rfl).1,
   ((C5_split_status_recompute bSplitFresh Installment.deposit "paid" none rfl).2.2.2.1
      bSplitFresh rfl rfl rfl rfl).2,
   rfl⟩

/-! ## Claim C6: final installment requires a paid deposit -/

/-- C6. On a split booking, the buyer marking the final installment paid
is rejected with an error (no booking is written) unless the deposit
status is already `paid`; an accepted submission sets that installment
status to `submitted`. -/
theorem C6_final_requires_deposit_paid (b : Booking) (uid : String)
    (hbuyer : b.buyerUid = uid) (hsplit : b.paymentStructure = "split_50_50") :
    (b.depositStatus ≠ some "paid" →
      markPaidHandler b uid (some "final") =
        .error "Deposit must be confirmed before paying the final installment")
    ∧ (b.depositStatus = some "paid" →
      ∃ r, markPaidHandler b uid (some "final") = .ok r
        ∧ r.finalStatus = some "submitted" ∧ r.status = "payment_submitted")
    ∧ (∃ r, markPaidHandler b uid (some "deposit") = .ok r
        ∧ r.depositStatus = some "submitted" ∧ r.status = "payment_submitted") := by
  subst hbuyer
  refine ⟨?_, ?_, ?_⟩
  · intro hne
    simp [markPaidHandler, hsplit, bne_iff_ne, hne]
  · intro heq
    refine ⟨updateBookingInstallment b .final "submitted" none, ?_, ?_, ?_⟩
    · simp [markPaidHandler, hsplit, heq]
    · exact (ubi_fields b .final "submitted" none hsplit).2.1
    · rw [(ubi_fields b .final "submitted" none hsplit).2.2.2]
      simp [depAfter, finAfter, heq]
  · refine ⟨updateBookingInstallment b .deposit "submitted" none, ?_, ?_, ?_⟩
    · simp [markPaidHandler, hsplit]
    · exact (ubi_fields b .deposit "submitted" none hsplit).1
    · rw [(ubi_fields b .deposit "submitted" none hsplit).2.2.2]
      simp [depAfter, finAfter]

/-- Witness for C6: on the fresh split booking (deposit still `pending`)
the buyer request to pay the final installment is rejected. -/
theorem C6_final_requires_deposit_paid_witness :
    markPaidHandler bSplitFresh "alice" (some "final") =
      .error "Deposit must be confirmed before paying the final installment"
    ∧ bSplitFresh.depositStatus = some "pending" :=
  ⟨(C6_final_requires_deposit_paid bSplitFresh "alice" rfl rfl).1 (by decide), rfl⟩

/-! ## Claim C7: escrow state preconditions and authorization -/

/-- C7. Escrow operations reject rather than coerce: reserve fails when
the booking is not `pending_payment` or when escrow is already
`authorized`; release and cancel fail whenever escrow is not
`authorized`; and every escrow operation succeeds only for the buyer (in
particular only for the buyer or an admin — reserve and
confirm-reservation are buyer-only, release and cancel accept buyer or
admin). -/
theorem C7_escrow_guards (b : Booking) (uid : String) (admin : Bool)
    (sid : String) (bodySid : Option String) (sps : String)
    (spi : Option String) (ist : String) :
    (uid = b.buyerUid → b.status ≠ "pending_payment" →
      reserveEscrowHandler b uid sid = .error "Booking is not awaiting payment")
    ∧ (uid = b.buyerUid → b.status = "pending_payment" →
        b.escrowStatus = "authorized" →
        reserveEscrowHandler b uid sid = .error "Payment already reserved in escrow")
    ∧ (b.escrowStatus ≠ "authorized" →
        ∀ r, releaseEscrowHandler b uid admin ≠ .ok r)
    ∧ (b.escrowStatus ≠ "authorized" →
        ∀ r, cancelEscrowHandler b uid admin ≠ .ok r)
    ∧ (∀ r, reserveEscrowHandler b uid sid = .ok r → uid = b.buyerUid ∨ admin = true)
    ∧ (∀ r, releaseEscrowHandler b uid admin = .ok r → uid = b.buyerUid ∨ admin = true)
    ∧ (∀ r, cancelEscrowHandler b uid admin = .ok r → uid = b.buyerUid ∨ admin = true)
    ∧ (∀ r, confirmEscrowHandler b uid bodySid sps spi ist = .authorized r →
        uid = b.buyerUid ∨ admin = true)
    ∧ (confirmEscrowHandler b uid bodySid sps spi ist = .alreadyAuthorized →
        uid = b.buyerUid ∨ admin = true) := by
  refine ⟨?_, ?_, ?_, ?_, ?_, ?_, ?_, ?_, ?_⟩
  · intro h hst
    subst h
    simp [reserveEscrowHandler, bne_iff_ne, hst]
  · intro h hst hesc
    subst h
    simp [reserveEscrowHandler, bne_iff_ne, hst, hesc]
  · intro hes r hr
    have hbne : (b.escrowStatus != "authorized") = true := by
      simp [bne_iff_ne]; exact hes
    unfold releaseEscrowHandler at hr
    split at hr
    · simp at hr
    · simp [hbne] at hr
  · intro hes r hr
    have hbne : (b.escrowStatus != "authorized") = true := by
      simp [bne_iff_ne]; exact hes
    unfold cancelEscrowHandler at hr
    split at hr
    · simp at hr
    · simp [hbne] at hr
  · intro r hr
    by_cases hb : b.buyerUid = uid
    · exact Or.inl hb.symm
    · have h1 : (b.buyerUid != uid) = true := by simp [bne_iff_ne]; exact hb
      simp [reserveEscrowHandler, h1] at hr
  · intro r hr
    by_cases hb : b.buyerUid = uid
    · exact Or.inl hb.symm
    · by_cases ha : admin = true
      · exact Or.inr ha
      · have h1 : (b.buyerUid != uid) = true := by simp [bne_iff_ne]; exact hb
        have h2 : admin = false := by
          cases admin
          · rfl
          · exact absurd rfl ha
        simp [releaseEscrowHandler, h1, h2] at hr
  · intro r hr
    by_cases hb : b.buyerUid = uid
    · exact Or.inl hb.symm
    · by_cases ha : admin = true
      · exact Or.inr ha
      · have h1 : (b.buyerUid != uid) = true := by simp [bne_iff_ne]; exact hb
        have h2 : admin = false := by
          cases admin
          · rfl
          · exact absurd rfl ha
        simp [cancelEscrowHandler, h1, h2] at hr
  · intro r hr
    by_cases hb : b.buyerUid = uid
    · exact Or.inl hb.symm
    · have h1 : (b.buyerUid != uid) = true := by simp [bne_iff_ne]; exact hb
      simp [confirmEscrowHandler, h1] at hr
  · intro hr
    by_cases hb : b.buyerUid = uid
    · exact Or.inl hb.symm
    · have h1 : (b.buyerUid != uid) = true := by simp [bne_iff_ne]; exact hb
      simp [confirmEscrowHandler, h1] at hr

/-- Witness for C7 on a confirmed booking with escrow `none`: reserve is
rejected for not awaiting payment, and release / cancel are rejected for
lack of an authorized escrow. -/
theorem C7_escrow_guards_witness :
    reserveEscrowHandler bConfirmed "alice" "sess1" =
      .error "Booking is not awaiting payment"
    ∧ releaseEscrowHandler bConfirmed "alice" false ≠ .ok bConfirmed
    ∧ cancelEscrowHandler bConfirmed "alice" false ≠ .ok bConfirmed :=
  ⟨(C7_escrow_guards bConfirmed "alice" false "sess1" none "paid" none
      "requires_capture").1 rfl (by decide),
   (C7_escrow_guards bConfirmed "alice" false "sess1" none "paid" none
      "requires_capture").2.2.1 (by decide) bConfirmed,
   (C7_escrow_guards bConfirmed "alice" false "sess1" none "paid" none
      "requires_capture").2.2.2.1 (by decide) bConfirmed⟩

/-! ## Claim C10: Adult Club Event posts are forced NSFW -/

set_option maxHeartbeats 1000000 in
/-- C10. Every successful post creation whose category is
`Adult Club Event` stores a post with `nsfw = true`, for any caller-
supplied `nsfw` flag and any environment: the flag is normalized before
`createPost` is called. -/
theorem C10_adult_event_forces_nsfw (input : PostInput) (userId : String)
    (env : PostsEnv) (p : Post) (s : LedgerState)
    (hcat : input.category = "Adult Club Event")
    (hok : postsCreateHandler input userId env = .ok (p, s)) :
    p.nsfw = true := by
  have hmem : ALL_EVENT_CATEGORIES.contains "Adult Club Event" = true := by decide
  have hlic : isLicensedCategory "Adult Club Event" = false := by decide
  unfold postsCreateHandler at hok
  rw [hcat] at hok
  cases hev : input.postType == "event" <;>
    cases hage : isAgeVerifiedOf env.verifications <;>
      simp only [hev, hage, hcat, hmem, hlic, beq_self_eq_true,
        String.reduceBEq, Bool.not_true, Bool.not_false, Bool.and_false,
        Bool.and_true, Bool.true_and, Bool.false_and, Bool.or_true,
        Bool.or_false, Bool.true_or, Bool.false_or, if_true, if_false,
        reduceIte, reduceCtorEq, ite_true, ite_false] at hok
  all_goals
    split at hok
    · simp at hok
    · split at hok
      · simp only [Except.ok.injEq, Prod.mk.injEq] at hok
        rw [← hok.1]
        simp [mkPost]
      · split at hok
        · simp at hok
        · simp only [Except.ok.injEq, Prod.mk.injEq] at hok
          rw [← hok.1]
          simp [mkPost]

/-- Witness for C10: the Adult Club Event input with `nsfw = false` from
an age-verified free-plan caller succeeds, and the stored post has
`nsfw = true`. -/
theorem C10_adult_event_forces_nsfw_witness :
    postsCreateHandler adultEventInput "usr" adultEventEnv =
      .ok (adultEventPost, adultEventLedger)
    ∧ adultEventInput.nsfw = false
    ∧ adultEventPost.nsfw = true :=
  ⟨by rfl, rfl,
   C10_adult_event_forces_nsfw adultEventInput "usr" adultEventEnv
     adultEventPost adultEventLedger rfl (by rfl)⟩

end ReupSpots
